import Mathlib

set_option maxHeartbeats 1000000

/-!
Shallow embedding of the SQL statement composer in `src/lib/operator.js`
(the `Operator` class of ali-rds).  Pure string-building code is translated
into executable Lean functions; the asynchronous delegate handoff
(`_query`) is modelled by explicit `Except` values.  The escaping and
positional-formatting helpers live in `./sqlstring`, which is not part of
`src/`; those are modelled from the specification (§4.1, §4.2) and carry a
`Modelled from the spec:` doc comment.
-/

namespace AliRds

/-- JS `Array.prototype.join(sep)` on a list of strings. -/
def joinWith (sep : String) : List String → String
  | [] => ""
  | [s] => s
  | s :: rest => s ++ sep ++ joinWith sep rest

/-- A SQL value as the modelled operations receive it: `null`/`undefined`,
a number, a string, or an array of values. -/
inductive Value where
  | vNull
  | vInt (n : Int)
  | vStr (s : String)
  | vArr (elems : List Value)

mutual
/-- Value equality, as JS strict equality compares the scalar values the
modelled operations put into where-conditions. -/
def valBeq : Value → Value → Bool
  | .vNull, .vNull => true
  | .vInt a, .vInt b => a == b
  | .vStr a, .vStr b => a == b
  | .vArr a, .vArr b => valListBeq a b
  | _, _ => false

/-- Pointwise `valBeq` on lists. -/
def valListBeq : List Value → List Value → Bool
  | [], [] => true
  | a :: as, b :: bs => valBeq a b && valListBeq as bs
  | _, _ => false
end

instance : BEq Value := ⟨valBeq⟩

/-- Modelled from the spec: identifier escaping (`SqlString.escapeId` of
`./sqlstring`, a file absent from `src/`) — the name is wrapped in
backticks and every embedded backtick is doubled. -/
def escIdChars : List Char → List Char
  | [] => []
  | c :: rest => if c = '`' then '`' :: '`' :: escIdChars rest else c :: escIdChars rest

/-- Modelled from the spec: `escapeId` on a single name. -/
def escId (s : String) : String := "`" ++ String.mk (escIdChars s.data) ++ "`"

/-- Modelled from the spec: the character-class escaping inside a quoted
string literal (quotes, backslash, control characters, null byte). -/
def escLitChar (c : Char) : List Char :=
  if c = '\'' then ['\\', '\'']
  else if c = '\\' then ['\\', '\\']
  else if c = '"' then ['\\', '"']
  else if c = '\n' then ['\\', 'n']
  else if c = '\r' then ['\\', 'r']
  else if c = '\t' then ['\\', 't']
  else if c = '\x00' then ['\\', '0']
  else if c = '\x08' then ['\\', 'b']
  else if c = '\x1a' then ['\\', 'Z']
  else [c]

/-- Modelled from the spec: a string value becomes a single-quoted SQL
literal with its characters escaped. -/
def escStr (s : String) : String :=
  "'" ++ String.mk (s.data.flatMap escLitChar) ++ "'"

mutual
/-- Modelled from the spec: `SqlString.escape` — `null`/`undefined` become
`NULL`, numbers become numeric literals, strings become quoted literals,
and a top-level array becomes the comma-joined list of its escaped
elements (the `IN (...)` form). -/
def escapeVal : Value → String
  | .vNull => "NULL"
  | .vInt n => toString n
  | .vStr s => escStr s
  | .vArr vs => joinWith ", " (escapeArrElems vs)

/-- Modelled from the spec: elements of an escaped array; a nested array
becomes a parenthesized tuple (the multi-row `VALUES` form). -/
def escapeArrElems : List Value → List String
  | [] => []
  | .vArr ws :: rest => ("(" ++ joinWith ", " (escapeArrElems ws) ++ ")") :: escapeArrElems rest
  | v :: rest => escapeVal v :: escapeArrElems rest
end

mutual
/-- Modelled from the spec: `SqlString.escapeId` applied to a `??` value —
an array is the comma-joined list of its escaped-identifier elements, any
other value is coerced to its string form and backtick-quoted. -/
def escapeIdVal : Value → String
  | .vStr s => escId s
  | .vArr vs => joinWith ", " (escapeIdList vs)
  | .vInt n => escId (toString n)
  | .vNull => escId "null"

/-- Modelled from the spec: identifier escaping of each array element. -/
def escapeIdList : List Value → List String
  | [] => []
  | v :: rest => escapeIdVal v :: escapeIdList rest
end

example : escapeVal (.vArr [.vInt 2, .vInt 3]) = "2, 3" := rfl
example : escapeVal (.vStr "a") = "'a'" := rfl
example : escId "t" = "`t`" := rfl

/-- Modelled from the spec: positional placeholder substitution
(`SqlString.format`, absent from `src/`).  The template is scanned left to
right; `??` consumes the next value as an escaped identifier, a single `?`
consumes it as an escaped literal; with the values exhausted the remaining
placeholders are left as literal text; extra values are ignored. -/
def formatPos : List Char → List Value → List Char
  | [], _ => []
  | '?' :: '?' :: rest, v :: vs => (escapeIdVal v).data ++ formatPos rest vs
  | '?' :: '?' :: rest, [] => '?' :: '?' :: formatPos rest []
  | '?' :: rest, v :: vs => (escapeVal v).data ++ formatPos rest vs
  | '?' :: rest, [] => '?' :: formatPos rest []
  | c :: rest, vs => c :: formatPos rest vs

/-- JS `\w`: ASCII letters, digits and underscore — the characters the
named-placeholder pattern accepts after `:`. -/
def isWordChar (c : Char) : Bool :=
  (('a' ≤ c && c ≤ 'z') || ('A' ≤ c && c ≤ 'Z') || ('0' ≤ c && c ≤ '9') || c = '_')

/-- What the named-mode replacement callback of `Operator.format` produces
for one matched `:identifier` occurrence (`acc` is the identifier, empty
when the `:` was not followed by a word character): a present key is
replaced by its escaped value, an absent key keeps the original text. -/
def namedEmit (lookup : String → Option Value) (acc : List Char) : List Char :=
  if acc = [] then [':']
  else
    match lookup (String.mk acc) with
    | some v => (escapeVal v).data
    | none => ':' :: acc

/-- The single left-to-right pass of `sql.replace(/\:(\w+)/g, cb)` in
`Operator.format`: `mode = none` scans plain text, `mode = some acc` is in
the middle of the word following a `:`. -/
def namedStep (lookup : String → Option Value) (mode : Option (List Char)) :
    List Char → List Char
  | [] =>
    match mode with
    | none => []
    | some acc => namedEmit lookup acc
  | c :: rest =>
    match mode with
    | none =>
      if c = ':' then namedStep lookup (some []) rest
      else c :: namedStep lookup none rest
    | some acc =>
      if isWordChar c then namedStep lookup (some (acc ++ [c])) rest
      else
        namedEmit lookup acc ++
          (if c = ':' then namedStep lookup (some []) rest
           else c :: namedStep lookup none rest)

/-- The `values` argument of `Operator.format`: a non-array non-null object
(named mode) or an array (positional mode, handed to `SqlString.format`). -/
inductive FormatValues where
  | obj (pairs : List (String × Value))
  | arr (vs : List Value)

/-- `Operator.format(sql, values)`: named mode when `values` is a
non-array, non-null object, positional mode otherwise. -/
def format (sql : String) (values : FormatValues) : String :=
  match values with
  | .obj pairs => String.mk (namedStep (fun k => pairs.lookup k) none sql.data)
  | .arr vs => String.mk (formatPos sql.data vs)

example : format "select :a" (.obj []) = "select :a" := rfl
example : format "select :a, :b" (.obj [("a", .vInt 1)]) = "select 1, :b" := rfl
example : format "?? = ?" (.arr [.vStr "a", .vInt 1]) = "`a` = 1" := rfl

/-- The per-key template fragment chosen inside the loop of
`Operator._where`: `?? IN (?)` for an array value, `?? IS ?` for a
null/undefined value, `?? = ?` otherwise. -/
def wherePieceStr : Value → String
  | .vArr _ => "?? IN (?)"
  | .vNull => "?? IS ?"
  | _ => "?? = ?"

/-- `Operator._where`: `none` models a falsy (absent/null) condition
argument; otherwise one template fragment per key, joined with ` AND `,
prefixed with ` WHERE ` and run through the positional formatter with
key/value pairs interleaved. -/
def whereFrag (w : Option (List (String × Value))) : String :=
  match w with
  | none => ""
  | some pairs =>
    if pairs.isEmpty then ""
    else
      format
        (" WHERE " ++ joinWith " AND " (pairs.map fun p => wherePieceStr p.2))
        (.arr (pairs.flatMap fun p => [Value.vStr p.1, p.2]))

example : whereFrag (some [("a", .vInt 1), ("b", .vArr [.vInt 2, .vInt 3])]) =
    " WHERE `a` = 1 AND `b` IN (2, 3)" := rfl
example : whereFrag (some [("k", .vNull)]) = " WHERE `k` IS NULL" := rfl

/-- One element of an `orders` array handed to `Operator._orders`: a string,
an array (modelled as its first element and optional second element), or a
value of any other type. -/
inductive OrderItem where
  | str (s : String)
  | pair (col : String) (dir : Option String)
  | other

/-- The `orders` argument of `Operator._orders`: falsy (absent), a single
string, or an array of items. -/
inductive OrdersArg where
  | absent
  | str (s : String)
  | arr (items : List OrderItem)

/-- JS `String.prototype.toUpperCase` on the ASCII range. -/
def upChar (c : Char) : Char :=
  if 'a' ≤ c && c ≤ 'z' then Char.ofNat (c.toNat - 32) else c

/-- Upper-casing of a whole string, character by character. -/
def upStr (s : String) : String := String.mk (s.data.map upChar)

/-- Rendering of one `orders` array element inside `Operator._orders`:
strings are escaped as identifiers; for an array the second element is
stringified and upper-cased, kept only when it is `ASC` or `DESC`; any
other element is skipped. -/
def orderItemRender : OrderItem → Option String
  | .str s => some (escId s)
  | .pair col dir =>
    match dir with
    | some d =>
      if upStr d = "ASC" || upStr d = "DESC" then some (escId col ++ " " ++ upStr d)
      else some (escId col)
    | none => some (escId col)
  | .other => none

/-- `Operator._orders`. -/
def ordersFrag : OrdersArg → String
  | .absent => ""
  | .str s => " ORDER BY " ++ joinWith ", " [escId s]
  | .arr items => " ORDER BY " ++ joinWith ", " (items.filterMap orderItemRender)

example : ordersFrag (.arr []) = " ORDER BY " := rfl
example : ordersFrag (.arr [.str "a", .pair "b" (some "desc")]) =
    " ORDER BY `a`, `b` DESC" := rfl

/-- `Operator._limit`: a falsy or non-numeric `limit` yields no clause
(`none` models both an absent and a non-numeric value, `some 0` the falsy
number `0`); a non-numeric `offset` defaults to `0`. -/
def limitFrag (limit : Option Int) (offset : Option Int) : String :=
  match limit with
  | none => ""
  | some l =>
    if l = 0 then ""
    else " LIMIT " ++ toString (offset.getD 0) ++ ", " ++ toString l

example : limitFrag (some 10) (some 5) = " LIMIT 5, 10" := rfl
example : limitFrag none (some 5) = "" := rfl

/-- `Operator._selectColumns`: a falsy `columns` defaults to `*`; the `*`
string keeps `SELECT *`, anything else goes through `??`. -/
def selectColumnsFrag (table : String) (columns : Option Value) : String :=
  match columns with
  | none => format "SELECT * FROM ??" (.arr [.vStr table])
  | some (.vStr s) =>
    if s = "*" then format "SELECT * FROM ??" (.arr [.vStr table])
    else format "SELECT ?? FROM ??" (.arr [.vStr s, .vStr table])
  | some c => format "SELECT ?? FROM ??" (.arr [c, .vStr table])

/-- The `options` object taken (and mutated) by `Operator.select` and
`Operator.get`. -/
structure SelectOptions where
  whereC : Option (List (String × Value)) := none
  columns : Option Value := none
  orders : OrdersArg := .absent
  limit : Option Int := none
  offset : Option Int := none

/-- `Operator.select`: the composed SQL text. -/
def selectSql (table : String) (options : SelectOptions) : String :=
  selectColumnsFrag table options.columns ++
    whereFrag options.whereC ++
    ordersFrag options.orders ++
    limitFrag options.limit options.offset

/-- The writes `Operator.get` performs on the caller-supplied `options`
object before delegating to `select`: `options.where = where`,
`options.limit = 1`, `options.offset = 0`. -/
def getOptionsAfter (whereArg : Option (List (String × Value)))
    (options : SelectOptions) : SelectOptions :=
  { options with whereC := whereArg, limit := some 1, offset := some 0 }

/-- `Operator.get`: the composed SQL text. -/
def getSql (table : String) (whereArg : Option (List (String × Value)))
    (options : SelectOptions) : String :=
  selectSql table (getOptionsAfter whereArg options)

/-- A row object: an ordered mapping from column name to value. -/
def Row := List (String × Value)

/-- `row[column]` as the source reads it: a missing key is `undefined`,
which escapes as `NULL`. -/
def rowGet (row : Row) (c : String) : Value := ((row.lookup c).getD .vNull)

/-- `Object.keys(row)`. -/
def rowKeys (row : Row) : List String := row.map (·.1)

/-- The `options` object taken (and mutated) by `Operator.insert`. -/
structure InsertOptions where
  columns : Option (List String) := none

/-- The write `Operator.insert` performs on the caller-supplied `options`
object: a falsy `options.columns` is set to the key set of the first row. -/
def insertOptionsAfter (firstObj : Row) (options : InsertOptions) : InsertOptions :=
  match options.columns with
  | none => { options with columns := some (rowKeys firstObj) }
  | some _ => options

/-- The `options` object taken (and mutated) by `Operator.update`. -/
structure UpdateOptions where
  columns : Option (List String) := none
  whereC : Option (List (String × Value)) := none

/-- The error message `Operator.update` throws when neither
`options.where` nor `row.id` is available. -/
def updateErrMsg : String :=
  "Can not auto detect update condition, please set options.where, or make sure obj.id exists"

/-- The writes `Operator.update` performs on the caller-supplied `options`
object: `columns` defaults to the key set of `row`; an absent `where`
defaults to `{id: row.id}`, or throws when `row` has no `id` key. -/
def updateOptionsAfter (row : Row) (options : UpdateOptions) :
    Except String UpdateOptions :=
  let o1 :=
    match options.columns with
    | none => { options with columns := some (rowKeys row) }
    | some _ => options
  match o1.whereC with
  | some _ => .ok o1
  | none =>
    match row.lookup "id" with
    | none => .error updateErrMsg
    | some v => .ok { o1 with whereC := some [("id", v)] }

/-- `Operator.update`: the composed SQL text, or the configuration error
thrown before any SQL exists. -/
def updateSql (table : String) (row : Row) (options : UpdateOptions) :
    Except String String :=
  (updateOptionsAfter row options).map fun o =>
    let cols := o.columns.getD []
    format "UPDATE ?? SET " (.arr [.vStr table]) ++
      format (joinWith ", " (cols.map fun _ => "?? = ?"))
        (.arr (cols.flatMap fun c => [Value.vStr c, rowGet row c])) ++
      whereFrag o.whereC

example : updateSql "t" [("id", .vInt 7), ("name", .vStr "x")] {} =
    .ok "UPDATE `t` SET `id` = 7, `name` = 'x' WHERE `id` = 7" := rfl
example : updateSql "t" [("name", .vStr "x")] {} = .error updateErrMsg := rfl

/-- One entry of the `updateRows` argument array: `id` models an own `id`
property, `row`/`whereC` the explicit `{row, where}` pair, and `extra` the
remaining own properties (the columns of the `{id, ...columns}` sugar
form). -/
structure UpdateOption where
  id : Option Value := none
  row : Option (List (String × Value)) := none
  whereC : Option (List (String × Value)) := none
  extra : List (String × Value) := []

/-- The `options` argument of `Operator.updateRows`: an array of entries,
or a value of any non-array type. -/
inductive UpdateRowsArg where
  | arr (entries : List UpdateOption)
  | nonArray

/-- The error message `Operator.updateRows` throws on an entry that has
neither an `id` property nor both `row` and `where`. -/
def updateRowsEntryErrMsg : String :=
  "Can not auto detect updateRows condition, please set option.row and option.where, or make sure option.id exists"

/-- The per-entry normalization in `Operator.updateRows`: an entry with an
`id` property becomes `{row: <other properties>, where: {id}}`; otherwise
both `row` and `where` must be present. -/
def normalizeEntry (o : UpdateOption) :
    Except String (List (String × Value) × List (String × Value)) :=
  match o.id with
  | some v => .ok (o.extra, [("id", v)])
  | none =>
    match o.row, o.whereC with
    | some r, some w => .ok (r, w)
    | _, _ => .error updateRowsEntryErrMsg

/-- `indexOf('WHERE')` over the characters of a rendered where-fragment. -/
def idxOfWHERE : List Char → Option Nat
  | 'W' :: 'H' :: 'E' :: 'R' :: 'E' :: _ => some 0
  | _ :: rest => (idxOfWHERE rest).map (· + 1)
  | [] => none

/-- The `WHERE`-keyword strip in `Operator.updateRows`:
`where.indexOf('WHERE') === -1 ? where : where.substring(indexOf + 5)`. -/
def stripWhere (s : String) : String :=
  match idxOfWHERE s.data with
  | none => s
  | some i => String.mk (s.data.drop (i + 5))

example : stripWhere (whereFrag (some [("id", .vInt 1)])) = " `id` = 1" := rfl

/-- The `SQL_CASE` accumulator of `Operator.updateRows`: per column (in
first-seen order) the list of `WHEN ... THEN ? ` fragments and the list of
queued `THEN` parameters. -/
def CaseAcc := List (String × (List String × List Value))

/-- The `WHERE` accumulator of `Operator.updateRows`: per where-column (in
first-seen order) the distinct values seen across the batch. -/
def WhereAcc := List (String × List Value)

/-- `SQL_CASE[key].when.push(...)` / `SQL_CASE[key].then.push(...)`,
creating the per-column accumulator on first sight. -/
def pushCase (m : CaseAcc) (k : String) (whenS : String) (v : Value) : CaseAcc :=
  match m with
  | [] => [(k, ([whenS], [v]))]
  | (k2, (ws, ts)) :: rest =>
    if k2 = k then (k2, (ws ++ [whenS], ts ++ [v])) :: rest
    else (k2, (ws, ts)) :: pushCase rest k whenS v

/-- `WHERE[key].push(value)` guarded by `indexOf(value) === -1`. -/
def pushWhere (m : WhereAcc) (k : String) (v : Value) : WhereAcc :=
  match m with
  | [] => [(k, [v])]
  | (k2, vs) :: rest =>
    if k2 = k then (k2, if vs.contains v then vs else vs ++ [v]) :: rest
    else (k2, vs) :: pushWhere rest k v

/-- The body of the `options.forEach` loop of `Operator.updateRows` for one
entry: normalize, render and strip the entry's where-fragment, extend the
per-column CASE accumulators and the distinct where-value sets. -/
def accumStep (acc : CaseAcc × WhereAcc) (o : UpdateOption) :
    Except String (CaseAcc × WhereAcc) :=
  (normalizeEntry o).map fun rw =>
    let frag := stripWhere (whereFrag (some rw.2))
    let cases := rw.1.foldl (fun m p => pushCase m p.1 (" WHEN " ++ frag ++ " THEN ? ") p.2) acc.1
    let wh := rw.2.foldl (fun m p => pushWhere m p.1 p.2) acc.2
    (cases, wh)

/-- The whole `options.forEach` loop of `Operator.updateRows`. -/
def accumRows (entries : List UpdateOption) : Except String (CaseAcc × WhereAcc) :=
  entries.foldlM accumStep ([], [])

/-- `Operator.updateRows`: the composed SQL text, or the configuration
error thrown before any SQL exists. -/
def updateRowsSql (table : String) (arg : UpdateRowsArg) : Except String String :=
  match arg with
  | .nonArray => .error "Options should be array"
  | .arr entries =>
    (accumRows entries).map fun acc =>
      let templates := acc.1.map fun kc =>
        " ?? = CASE " ++ joinWith " " kc.2.1 ++ " ELSE ?? END "
      let values := Value.vStr table ::
        acc.1.flatMap fun kc => Value.vStr kc.1 :: (kc.2.2 ++ [Value.vStr kc.1])
      let sqlT := "UPDATE ?? SET " ++ joinWith " , " templates ++
        whereFrag (some (acc.2.map fun kv => (kv.1, Value.vArr kv.2)))
      format sqlT (.arr values)

example :
    updateRowsSql "t" (.arr [
      { id := some (.vInt 1), extra := [("name", .vStr "a")] },
      { id := some (.vInt 2), extra := [("name", .vStr "b")] }]) =
    .ok "UPDATE `t` SET  `name` = CASE  WHEN  `id` = 1 THEN 'a'   WHEN  `id` = 2 THEN 'b'  ELSE `name` END  WHERE `id` IN (1, 2)" := rfl

/-- One element of the `tables` argument of `Operator.locks`; `none` models
a falsy (absent or empty) `tableName`/`lockType`. -/
structure LockRequest where
  tableName : Option String := none
  lockType : Option String := none
  tableAlias : Option String := none

/-- The closed set of accepted lock types, compared against the
upper-cased `lockType`. -/
def validLockTypes : List String := ["READ", "WRITE", "READ LOCAL", "LOW_PRIORITY WRITE"]

/-- The per-entry validation and rendering inside `Operator.#locks`: the
piece of SQL this entry contributes after the `LOCK TABLES ` header (and
after the `, ` separator for entries past the first). -/
def lockEntrySql (r : LockRequest) : Except String String :=
  match r.tableName with
  | none => .error "No table_name provided while trying to lock table"
  | some name =>
    match r.lockType with
    | none => .error ("No lock_type provided while trying to lock table `" ++ name ++ "`")
    | some lt =>
      if validLockTypes.contains (upStr lt) then
        .ok (" " ++ escId name ++ " " ++
          (match r.tableAlias with
           | some a => " AS " ++ escId a ++ " "
           | none => "") ++
          " " ++ lt)
      else
        .error ("lock_type provided while trying to lock table `" ++ name ++
          "` must be one of the following(CASE INSENSITIVE):\n`READ` | `WRITE` | `READ LOCAL` | `LOW_PRIORITY WRITE`")

/-- `Operator.#locks`: the composed `LOCK TABLES` statement, or the
configuration error thrown before any SQL exists. -/
def locksSql (tableLocks : List LockRequest) : Except String String :=
  if tableLocks.isEmpty then .error "Cannot lock empty tables."
  else
    (tableLocks.mapM lockEntrySql).map fun parts =>
      "LOCK TABLES " ++ joinWith ", " parts ++ ";"

example : locksSql [{ tableName := some "t", lockType := some "read" }] =
    .ok "LOCK TABLES  `t`  read;" := rfl
example : locksSql [] = .error "Cannot lock empty tables." := rfl

/-- A JS error as `Operator.query` observes it: a message and a mutable
`stack` string the catch block appends to. -/
structure JsError where
  message : String
  stack : String

/-- A result row handed back by the execution delegate. -/
def ResultRow := List (String × Value)

/-- The `try { await this._query(sql) } catch` block of `Operator.query`:
on failure the caught error is rethrown with
`err.stack = err.stack + '\n    sql: ' + sql`; on success the delegate's
rows are returned unchanged. -/
def queryRun (delegate : String → Except JsError (List ResultRow)) (sql : String) :
    Except JsError (List ResultRow) :=
  match delegate sql with
  | .ok rows => .ok rows
  | .error e => .error { e with stack := e.stack ++ "\n    sql: " ++ sql }

/-- `Operator.count`: the composed SQL text (note the lower-case `as` in
the source template). -/
def countSql (table : String) (whereArg : Option (List (String × Value))) : String :=
  format "SELECT COUNT(*) as count FROM ??" (.arr [.vStr table]) ++ whereFrag whereArg

example : countSql "t" none = "SELECT COUNT(*) as count FROM `t`" := rfl

/-- `Operator.count` end to end: run the composed SQL through `query` and
read the `count` field of row 0 of the delegate's result. -/
def countRun (delegate : String → Except JsError (List ResultRow))
    (table : String) (whereArg : Option (List (String × Value))) :
    Except JsError (Option Value) :=
  (queryRun delegate (countSql table whereArg)).map fun rows =>
    rows.head? >>= fun r => (List.lookup "count" r)

/-- `Operator.update` end to end: a configuration error is thrown before
the delegate is consulted; otherwise the one composed statement is handed
to `query`. -/
def updateRun (delegate : String → Except JsError (List ResultRow))
    (table : String) (row : Row) (options : UpdateOptions) :
    Except String (Except JsError (List ResultRow)) :=
  (updateSql table row options).map fun sql => queryRun delegate sql

/-- `Operator.updateRows` end to end. -/
def updateRowsRun (delegate : String → Except JsError (List ResultRow))
    (table : String) (arg : UpdateRowsArg) :
    Except String (Except JsError (List ResultRow)) :=
  (updateRowsSql table arg).map fun sql => queryRun delegate sql

/-- `Operator.locks` end to end. -/
def locksRun (delegate : String → Except JsError (List ResultRow))
    (tableLocks : List LockRequest) :
    Except String (Except JsError (List ResultRow)) :=
  (locksSql tableLocks).map fun sql => queryRun delegate sql

/-- Rendering of a single WHERE condition as the specification's words
describe it: backtick-quoted column, then ` IN (...)` for an array value,
` IS NULL` for a null value, ` = value` for a scalar. -/
def renderCond (k : String) (v : Value) : String :=
  escId k ++
    (match v with
     | .vArr _ => " IN (" ++ escapeVal v ++ ")"
     | .vNull => " IS NULL"
     | _ => " = " ++ escapeVal v)

/-- One piece of a template read as the specification reads named mode: a
literal character, or one `:identifier` occurrence. -/
inductive NamedSeg where
  | lit (c : Char)
  | ph (key : String)

/-- The segment a finished scan state contributes: a bare `:` when no word
characters followed, otherwise the `:identifier` occurrence. -/
def parseEmit (acc : List Char) : NamedSeg :=
  if acc = [] then .lit ':' else .ph (String.mk acc)

/-- The specification's reading of a named-mode template: split it into
literal characters and maximal `:identifier` occurrences (`mode` as in
`namedStep`). -/
def parseStep (mode : Option (List Char)) : List Char → List NamedSeg
  | [] =>
    match mode with
    | none => []
    | some acc => [parseEmit acc]
  | c :: rest =>
    match mode with
    | none =>
      if c = ':' then parseStep (some []) rest
      else .lit c :: parseStep none rest
    | some acc =>
      if isWordChar c then parseStep (some (acc ++ [c])) rest
      else
        parseEmit acc ::
          (if c = ':' then parseStep (some []) rest
           else .lit c :: parseStep none rest)

/-- All `:identifier` occurrences and literal characters of a template. -/
def namedOccurrences (sql : String) : List NamedSeg := parseStep none sql.data

/-- The specification's substitution rule for one segment: a present key is
replaced by its escaped value, an absent key keeps the literal
`:identifier` text, literal characters pass through. -/
def renderSegChars (lookup : String → Option Value) : NamedSeg → List Char
  | .lit c => [c]
  | .ph k =>
    match lookup k with
    | some v => (escapeVal v).data
    | none => ':' :: k.data

theorem namedEmit_renderSeg (lookup : String → Option Value) (acc : List Char) :
    namedEmit lookup acc = renderSegChars lookup (parseEmit acc) := by
  by_cases h : acc = []
  · simp [namedEmit, parseEmit, renderSegChars, h]
  · simp only [namedEmit, parseEmit, if_neg h, renderSegChars]

theorem namedStep_eq_parse (lookup : String → Option Value) (cs : List Char) :
    ∀ mode, namedStep lookup mode cs =
      (parseStep mode cs).flatMap (renderSegChars lookup) := by
  induction cs with
  | nil =>
    intro mode
    cases mode with
    | none => rfl
    | some acc => simp [namedStep, parseStep, namedEmit_renderSeg]
  | cons c rest ih =>
    intro mode
    cases mode with
    | none =>
      by_cases h : c = ':' <;>
        simp [namedStep, parseStep, h, ih, renderSegChars]
    | some acc =>
      by_cases hw : isWordChar c
      · simp [namedStep, parseStep, hw, ih]
      · by_cases h : c = ':' <;>
          simp [namedStep, parseStep, hw, h, ih, namedEmit_renderSeg, renderSegChars,
            show isWordChar ':' = false from rfl]

theorem fp_cons_ne {c : Char} (h : c ≠ '?') (rest : List Char) (vs : List Value) :
    formatPos (c :: rest) vs = c :: formatPos rest vs := by
  rw [formatPos.eq_def]
  split <;> simp_all

theorem fp_dq (rest : List Char) (v : Value) (vs : List Value) :
    formatPos ('?' :: '?' :: rest) (v :: vs) =
      (escapeIdVal v).data ++ formatPos rest vs := rfl

theorem fp_q {rest : List Char} (hr : rest.head? ≠ some '?') (v : Value) (vs : List Value) :
    formatPos ('?' :: rest) (v :: vs) = (escapeVal v).data ++ formatPos rest vs := by
  cases rest with
  | nil => rfl
  | cons c2 t =>
    have hc : c2 ≠ '?' := by simpa using hr
    rw [formatPos.eq_def]
    split <;> try simp_all
    rename_i heq hne
    exact absurd heq.1.symm hne

theorem fp_lit {lit : List Char} (h : '?' ∉ lit) (rest : List Char) (vs : List Value) :
    formatPos (lit ++ rest) vs = lit ++ formatPos rest vs := by
  induction lit with
  | nil => rfl
  | cons c l ih =>
    have hc : c ≠ '?' := fun e => h (e ▸ List.mem_cons_self c l)
    have hl : '?' ∉ l := fun m => h (List.mem_cons_of_mem c m)
    simp only [List.cons_append, fp_cons_ne hc, ih hl]

theorem mk_append (a b : List Char) : String.mk (a ++ b) = String.mk a ++ String.mk b := rfl

/-- Consuming one `_where` template piece: the formatter turns the piece
chosen for value `v` (with key `k` and `v` queued) into the rendering the
specification describes, and goes on with the rest. -/
theorem piece_consume (k : String) (v : Value) {rest : List Char}
    (hr : rest.head? ≠ some '?') (vs : List Value) :
    formatPos ((wherePieceStr v).data ++ rest) (Value.vStr k :: v :: vs) =
      (renderCond k v).data ++ formatPos rest vs := by
  have hid : escapeIdVal (Value.vStr k) = escId k := rfl
  cases v with
  | vArr elems =>
    show formatPos ('?' :: '?' :: ([' ', 'I', 'N', ' ', '('] ++ '?' :: ')' :: rest))
        (Value.vStr k :: Value.vArr elems :: vs) = _
    rw [fp_dq, fp_lit (by decide), fp_q (by simp), fp_cons_ne (by decide)]
    simp [renderCond, hid, String.data_append]
  | vNull =>
    show formatPos ('?' :: '?' :: ([' ', 'I', 'S', ' '] ++ '?' :: rest))
        (Value.vStr k :: Value.vNull :: vs) = _
    rw [fp_dq, fp_lit (by decide), fp_q hr]
    simp [renderCond, hid, escapeVal, String.data_append]
  | vInt n =>
    show formatPos ('?' :: '?' :: ([' ', '=', ' '] ++ '?' :: rest))
        (Value.vStr k :: Value.vInt n :: vs) = _
    rw [fp_dq, fp_lit (by decide), fp_q hr]
    simp [renderCond, hid, String.data_append]
  | vStr s =>
    show formatPos ('?' :: '?' :: ([' ', '=', ' '] ++ '?' :: rest))
        (Value.vStr k :: Value.vStr s :: vs) = _
    rw [fp_dq, fp_lit (by decide), fp_q hr]
    simp [renderCond, hid, String.data_append]

/-- The joined `_where` template pieces format to the joined renderings the
specification describes. -/
theorem where_join (p : String × Value) (pairs : List (String × Value)) :
    formatPos ((joinWith " AND " ((p :: pairs).map fun q => wherePieceStr q.2)).data)
        ((p :: pairs).flatMap fun q => [Value.vStr q.1, q.2]) =
      (joinWith " AND " ((p :: pairs).map fun q => renderCond q.1 q.2)).data := by
  induction pairs generalizing p with
  | nil =>
    have e1 : joinWith " AND " ([p].map fun r => wherePieceStr r.2) = wherePieceStr p.2 := rfl
    have e2 : joinWith " AND " ([p].map fun r => renderCond r.1 r.2) =
        renderCond p.1 p.2 := rfl
    have e3 : ([p].flatMap fun q => [Value.vStr q.1, q.2]) = [Value.vStr p.1, p.2] := by simp
    rw [e1, e2, e3]
    have := @piece_consume p.1 p.2 [] (by simp) []
    simpa [show formatPos [] [] = ([] : List Char) from rfl] using this
  | cons q rest ih =>
    have e1 : joinWith " AND " ((p :: q :: rest).map fun r => wherePieceStr r.2) =
        wherePieceStr p.2 ++ " AND " ++
          joinWith " AND " ((q :: rest).map fun r => wherePieceStr r.2) := rfl
    have e2 : joinWith " AND " ((p :: q :: rest).map fun r => renderCond r.1 r.2) =
        renderCond p.1 p.2 ++ " AND " ++
          joinWith " AND " ((q :: rest).map fun r => renderCond r.1 r.2) := rfl
    have e3 : ((p :: q :: rest).flatMap fun r => [Value.vStr r.1, r.2]) =
        Value.vStr p.1 :: p.2 :: ((q :: rest).flatMap fun r => [Value.vStr r.1, r.2]) := by
      simp
    rw [e1, e2, e3]
    have hsplit :
        (wherePieceStr p.2 ++ " AND " ++
            joinWith " AND " ((q :: rest).map fun r => wherePieceStr r.2)).data =
          (wherePieceStr p.2).data ++
            ((" AND ").data ++
              (joinWith " AND " ((q :: rest).map fun r => wherePieceStr r.2)).data) := by
      simp [String.data_append]
    rw [hsplit]
    have hhead :
        (((" AND ").data ++
            (joinWith " AND " ((q :: rest).map fun r => wherePieceStr r.2)).data)).head? ≠
          some '?' := by
      simp [show (" AND ").data = [' ', 'A', 'N', 'D', ' '] from rfl]
    rw [piece_consume p.1 p.2 hhead]
    rw [fp_lit (show ('?' : Char) ∉ (" AND ").data by decide)]
    rw [ih q]
    simp [String.data_append]

theorem strEq_of_data {a b : String} (h : a.data = b.data) : a = b := by
  cases a
  cases b
  exact congrArg String.mk h

/-- C1: `_where` on an absent or empty WhereSpec yields `''`; otherwise
each key is rendered in mapping iteration order as `` `key` IN (...) `` for
an array value, `` `key` IS NULL `` for a null value and `` `key` = value ``
for a scalar, the fragments joined with ` AND ` and prefixed with
` WHERE `; in particular `{a: 1, b: [2,3]}` renders exactly as
`` WHERE `a` = 1 AND `b` IN (2, 3)``. -/
theorem c1_where_builder :
    whereFrag none = "" ∧
    whereFrag (some []) = "" ∧
    (∀ pairs : List (String × Value), pairs ≠ [] →
      whereFrag (some pairs) =
        " WHERE " ++ joinWith " AND " (pairs.map fun p => renderCond p.1 p.2)) ∧
    whereFrag (some [("a", .vInt 1), ("b", .vArr [.vInt 2, .vInt 3])]) =
      " WHERE `a` = 1 AND `b` IN (2, 3)" := by
  refine ⟨rfl, rfl, ?_, rfl⟩
  intro pairs hne
  obtain ⟨p, rest, rfl⟩ : ∃ p rest, pairs = p :: rest := by
    cases pairs with
    | nil => exact absurd rfl hne
    | cons p rest => exact ⟨p, rest, rfl⟩
  have h0 : whereFrag (some (p :: rest)) =
      String.mk (formatPos ((" WHERE " ++
          joinWith " AND " ((p :: rest).map fun q => wherePieceStr q.2)).data)
        ((p :: rest).flatMap fun q => [Value.vStr q.1, q.2])) := rfl
  rw [h0, String.data_append]
  rw [fp_lit (show ('?' : Char) ∉ (" WHERE ").data by decide)]
  rw [where_join]
  rw [← String.data_append]

/-- Witness for C1 at the one-key spec `{k: null}`. -/
theorem c1_where_builder_witness :
    ([(("k" : String), Value.vNull)] ≠ []) ∧
    whereFrag (some [("k", Value.vNull)]) =
      " WHERE " ++ joinWith " AND "
        ([(("k" : String), Value.vNull)].map fun p => renderCond p.1 p.2) := by
  exact ⟨by simp, c1_where_builder.2.2.1 [("k", Value.vNull)] (by simp)⟩

/-- C4: with a non-array, non-null object as `values`, `format` runs in
named mode — the template splits into literal characters and `:identifier`
occurrences; an occurrence whose key is present is replaced by the escaped
value and one whose key is absent stays as literal text — and
`format "select :a" {}` returns `"select :a"` unchanged. -/
theorem c4_format_named_mode :
    (∀ sql pairs, format sql (.obj pairs) =
      String.mk ((namedOccurrences sql).flatMap (renderSegChars fun k => pairs.lookup k))) ∧
    format "select :a" (.obj []) = "select :a" :=
  ⟨fun sql pairs =>
    congrArg String.mk (namedStep_eq_parse (fun k => pairs.lookup k) sql.data none), rfl⟩

/-- C7: when the delegate fails, `query` rethrows the same error with only
the SQL text appended to its stack; when it succeeds, the delegate's rows
come back unchanged. -/
theorem c7_query_error_rethrow :
    ∀ (delegate : String → Except JsError (List ResultRow)) (sql : String),
      (∀ e, delegate sql = .error e →
        queryRun delegate sql =
          .error { message := e.message, stack := e.stack ++ "\n    sql: " ++ sql }) ∧
      (∀ rows, delegate sql = .ok rows → queryRun delegate sql = .ok rows) := by
  intro delegate sql
  constructor
  · intro e h
    simp [queryRun, h]
  · intro rows h
    simp [queryRun, h]

/-- Witness for C7 with one failing and one succeeding delegate. -/
theorem c7_query_error_rethrow_witness :
    queryRun (fun _ => .error ⟨"boom", "trace"⟩) "SELECT 1" =
      .error { message := "boom", stack := "trace" ++ "\n    sql: " ++ "SELECT 1" } ∧
    queryRun (fun _ => .ok []) "SELECT 1" = .ok [] :=
  ⟨(c7_query_error_rethrow (fun _ => .error ⟨"boom", "trace"⟩) "SELECT 1").1
      ⟨"boom", "trace"⟩ rfl,
    (c7_query_error_rethrow (fun _ => .ok []) "SELECT 1").2 [] rfl⟩

/-- C8 counterexample: the source template spells a lower-case `as`, so the
statement `count` composes is not the claimed byte-for-byte
`SELECT COUNT(*) AS count FROM ...` text. -/
theorem c8_count_counterexample :
    countSql "t" none = "SELECT COUNT(*) as count FROM `t`" ∧
    countSql "t" none ≠ "SELECT COUNT(*) AS count FROM `t`" := by
  refine ⟨rfl, by decide⟩

/-- C8 amended: `count` composes
`SELECT COUNT(*) as count FROM <escaped table><where fragment>` (lower-case
`as`) and returns the `count` field of row 0 of the delegate's result. -/
theorem c8_count_sql :
    ∀ (table : String) (w : Option (List (String × Value)))
      (delegate : String → Except JsError (List ResultRow)) (rows : List ResultRow),
      countSql table w = "SELECT COUNT(*) as count FROM " ++ escId table ++ whereFrag w ∧
      (delegate (countSql table w) = .ok rows →
        countRun delegate table w = .ok (rows.head? >>= fun r => List.lookup "count" r)) := by
  intro table w delegate rows
  constructor
  · have h0 : countSql table w =
        String.mk (formatPos (("SELECT COUNT(*) as count FROM ").data ++ ['?', '?'])
          [Value.vStr table]) ++ whereFrag w := rfl
    rw [h0, fp_lit (show ('?' : Char) ∉ ("SELECT COUNT(*) as count FROM ").data by decide)]
    have h1 : formatPos ['?', '?'] [Value.vStr table] = (escId table).data ++ [] := fp_dq [] _ []
    rw [h1]
    apply congrArg (· ++ whereFrag w)
    exact strEq_of_data (by simp [String.data_append])
  · intro h
    have hq : queryRun delegate (countSql table w) = .ok rows := by simp [queryRun, h]
    unfold countRun
    rw [hq]
    rfl

/-- C3: `update` with no `options.where` throws the configuration error
when `row` has no `id` key, and otherwise uses exactly `{id: row.id}` as
the WHERE condition. -/
theorem c3_update_where_default :
    ∀ (table : String) (row : Row) (options : UpdateOptions),
      options.whereC = none →
      (row.lookup "id" = none →
        updateSql table row options = .error updateErrMsg ∧
        ∀ delegate, updateRun delegate table row options = .error updateErrMsg) ∧
      (∀ v, row.lookup "id" = some v →
        ∃ o, updateOptionsAfter row options = .ok o ∧
          o.whereC = some [("id", v)] ∧
          ∃ s, updateSql table row options = .ok s) := by
  intro table row options hw
  constructor
  · intro hid
    have h1 : updateOptionsAfter row options = .error updateErrMsg := by
      cases hcol : options.columns <;>
        simp [updateOptionsAfter, hcol, hw, hid]
    constructor
    · simp [updateSql, h1, Except.map]
    · intro delegate
      simp [updateRun, updateSql, h1, Except.map]
  · intro v hid
    cases hcol : options.columns with
    | none =>
      have h2 : updateOptionsAfter row options =
          .ok { options with columns := some (rowKeys row), whereC := some [("id", v)] } := by
        simp [updateOptionsAfter, hcol, hw, hid]
      refine ⟨_, h2, rfl, ?_⟩
      unfold updateSql
      rw [h2]
      exact ⟨_, rfl⟩
    | some cols =>
      have h2 : updateOptionsAfter row options =
          .ok { options with whereC := some [("id", v)] } := by
        simp [updateOptionsAfter, hcol, hw, hid]
      refine ⟨_, h2, rfl, ?_⟩
      unfold updateSql
      rw [h2]
      exact ⟨_, rfl⟩

/-- Witness for C3 at concrete rows with and without an `id` field. -/
theorem c3_update_where_default_witness :
    (updateSql "t" [("name", Value.vStr "x")] {} = .error updateErrMsg) ∧
    (∃ o, updateOptionsAfter [("id", Value.vInt 7), ("name", Value.vStr "x")] {} = .ok o ∧
      o.whereC = some [("id", Value.vInt 7)] ∧
      ∃ s, updateSql "t" [("id", Value.vInt 7), ("name", Value.vStr "x")] {} = .ok s) :=
  ⟨((c3_update_where_default "t" [("name", Value.vStr "x")] {} rfl).1 rfl).1,
    (c3_update_where_default "t" [("id", Value.vInt 7), ("name", Value.vStr "x")] {} rfl).2
      (Value.vInt 7) rfl⟩

/-- Witness for C8 at a concrete table, where-spec and delegate. -/
theorem c8_count_sql_witness :
    countSql "t" (some [("a", Value.vInt 1)]) =
      "SELECT COUNT(*) as count FROM " ++ escId "t" ++ whereFrag (some [("a", Value.vInt 1)]) ∧
    countRun (fun _ => .ok [[("count", Value.vInt 3)]]) "t" (some [("a", Value.vInt 1)]) =
      .ok ([[("count", Value.vInt 3)]].head? >>= fun r => List.lookup "count" r) :=
  ⟨(c8_count_sql "t" (some [("a", Value.vInt 1)]) (fun _ => .ok [[("count", Value.vInt 3)]])
      [[("count", Value.vInt 3)]]).1,
    (c8_count_sql "t" (some [("a", Value.vInt 1)]) (fun _ => .ok [[("count", Value.vInt 3)]])
      [[("count", Value.vInt 3)]]).2 rfl⟩

/-- C9: `get`, `insert` and `update` write their defaults back into the
caller-supplied `options` object: after `get` the object carries the
`where` argument, `limit = 1` and `offset = 0`; `insert` writes the
defaulted `columns`; `update` writes the defaulted `columns` and `where`;
so the argument is in general not left unchanged. -/
theorem c9_options_mutation :
    (∀ w options, (getOptionsAfter w options).whereC = w ∧
      (getOptionsAfter w options).limit = some 1 ∧
      (getOptionsAfter w options).offset = some 0) ∧
    (∃ w options, getOptionsAfter w options ≠ options) ∧
    (∀ firstObj options, options.columns = none →
      (insertOptionsAfter firstObj options).columns = some (rowKeys firstObj)) ∧
    (∀ (row : Row) options, options.columns = none →
      ∀ o, updateOptionsAfter row options = .ok o → o.columns = some (rowKeys row)) ∧
    (∀ (row : Row) options v, options.whereC = none → row.lookup "id" = some v →
      ∀ o, updateOptionsAfter row options = .ok o → o.whereC = some [("id", v)]) := by
  refine ⟨fun w options => ⟨rfl, rfl, rfl⟩, ?_, ?_, ?_, ?_⟩
  · refine ⟨none, { limit := some 5 }, fun h => ?_⟩
    have := congrArg SelectOptions.limit h
    simp [getOptionsAfter] at this
  · intro firstObj options h
    simp [insertOptionsAfter, h]
  · intro row options h o ho
    cases hw : options.whereC with
    | none =>
      cases hid : row.lookup "id" with
      | none => simp [updateOptionsAfter, h, hw, hid] at ho
      | some v =>
        simp [updateOptionsAfter, h, hw, hid] at ho
        rw [← ho]
    | some w =>
      simp [updateOptionsAfter, h, hw] at ho
      rw [← ho]
  · intro row options v hw hid o ho
    cases hcol : options.columns with
    | none =>
      simp [updateOptionsAfter, hcol, hw, hid] at ho
      rw [← ho]
    | some cols =>
      simp [updateOptionsAfter, hcol, hw, hid] at ho
      rw [← ho]

/-- Witness for C9 at concrete rows and options objects. -/
theorem c9_options_mutation_witness :
    (insertOptionsAfter [("a", Value.vInt 1)] {}).columns = some (rowKeys [("a", Value.vInt 1)]) ∧
    (∀ o, updateOptionsAfter [("id", Value.vInt 3)] {} = .ok o →
      o.columns = some (rowKeys ([("id", Value.vInt 3)] : Row))) ∧
    (∀ o, updateOptionsAfter [("id", Value.vInt 3)] {} = .ok o →
      o.whereC = some [("id", Value.vInt 3)]) :=
  ⟨c9_options_mutation.2.2.1 [("a", Value.vInt 1)] {} rfl,
    fun o ho => c9_options_mutation.2.2.2.1 [("id", Value.vInt 3)] {} rfl o ho,
    fun o ho =>
      c9_options_mutation.2.2.2.2 [("id", Value.vInt 3)] {} (Value.vInt 3) rfl rfl o ho⟩

/-- C10: an empty `orders` array (or one whose entries are all neither
strings nor arrays) yields the dangling fragment ` ORDER BY ` rather than
`''`; such entries are silently skipped; and `select` with `orders: []`
(and no limit) composes SQL ending in the bare ` ORDER BY ` text. -/
theorem c10_orders_dangling :
    ordersFrag (.arr []) = " ORDER BY " ∧
    (∀ items, (∀ i ∈ items, i = OrderItem.other) → ordersFrag (.arr items) = " ORDER BY ") ∧
    (∀ items, ordersFrag (.arr (OrderItem.other :: items)) = ordersFrag (.arr items)) ∧
    (∀ table options, options.orders = .arr [] → options.limit = none →
      selectSql table options =
        selectColumnsFrag table options.columns ++ whereFrag options.whereC ++ " ORDER BY ") := by
  refine ⟨rfl, ?_, ?_, ?_⟩
  · intro items h
    have : items.filterMap orderItemRender = [] := by
      rw [List.filterMap_eq_nil_iff]
      intro a ha
      rw [h a ha]
      rfl
    simp [ordersFrag, this, joinWith]
  · intro items
    simp [ordersFrag, orderItemRender]
  · intro table options ho hl
    simp [selectSql, ho, hl, limitFrag, ordersFrag, joinWith]

/-- Witness for C10: all-skipped entries and the composed `select` text at
a concrete table and options object. -/
theorem c10_orders_dangling_witness :
    ordersFrag (.arr [OrderItem.other, OrderItem.other]) = " ORDER BY " ∧
    selectSql "t" { orders := .arr [] } =
      selectColumnsFrag "t" none ++ whereFrag none ++ " ORDER BY " :=
  ⟨c10_orders_dangling.2.1 [OrderItem.other, OrderItem.other] (by
      intro i hi
      have h2 : i = OrderItem.other ∨ i = OrderItem.other := by simpa using hi
      rcases h2 with h | h <;> exact h),
    c10_orders_dangling.2.2.2 "t" { orders := .arr [] } rfl rfl⟩

theorem updateOptionsAfter_error {row : Row} {options : UpdateOptions}
    (hw : options.whereC = none) (hid : row.lookup "id" = none) :
    updateOptionsAfter row options = .error updateErrMsg := by
  cases hcol : options.columns <;> simp [updateOptionsAfter, hcol, hw, hid]

theorem accumStep_error (acc : CaseAcc × WhereAcc) {e : UpdateOption}
    (h1 : e.id = none) (h2 : e.row = none ∨ e.whereC = none) :
    accumStep acc e = .error updateRowsEntryErrMsg := by
  have hn : normalizeEntry e = .error updateRowsEntryErrMsg := by
    rcases h2 with h | h
    · simp [normalizeEntry, h1, h]
    · cases hr : e.row <;> simp [normalizeEntry, h1, h, hr]
  simp [accumStep, hn, Except.map]

theorem accum_fold_error :
    ∀ (entries : List UpdateOption) (acc : CaseAcc × WhereAcc) {e : UpdateOption},
      e ∈ entries → e.id = none → (e.row = none ∨ e.whereC = none) →
      ∃ m, List.foldlM accumStep acc entries = .error m := by
  intro entries
  induction entries with
  | nil =>
    intro acc e he
    simp at he
  | cons a l ih =>
    intro acc e he h1 h2
    rw [List.foldlM_cons]
    cases hs : accumStep acc a with
    | error m => exact ⟨m, rfl⟩
    | ok acc2 =>
      rcases List.mem_cons.mp he with rfl | hmem
      · rw [accumStep_error acc h1 h2] at hs
        cases hs
      · obtain ⟨m, hm⟩ := ih acc2 hmem h1 h2
        refine ⟨m, ?_⟩
        show List.foldlM accumStep acc2 l = Except.error m
        exact hm

theorem lockEntry_error (r : LockRequest)
    (h : r.tableName = none ∨ r.lockType = none ∨
      ∃ lt, r.lockType = some lt ∧ validLockTypes.contains (upStr lt) = false) :
    ∃ m, lockEntrySql r = .error m := by
  rcases h with h | h | ⟨lt, hlt, hbad⟩
  · refine ⟨"No table_name provided while trying to lock table", ?_⟩
    simp [lockEntrySql, h]
  · cases hn : r.tableName with
    | none =>
      refine ⟨"No table_name provided while trying to lock table", ?_⟩
      simp [lockEntrySql, hn]
    | some name =>
      refine ⟨"No lock_type provided while trying to lock table `" ++ name ++ "`", ?_⟩
      simp [lockEntrySql, hn, h]
  · cases hn : r.tableName with
    | none =>
      refine ⟨"No table_name provided while trying to lock table", ?_⟩
      simp [lockEntrySql, hn]
    | some name =>
      have hmem : upStr lt ∉ validLockTypes := by simpa using hbad
      refine ⟨"lock_type provided while trying to lock table `" ++ name ++
        "` must be one of the following(CASE INSENSITIVE):\n`READ` | `WRITE` | `READ LOCAL` | `LOW_PRIORITY WRITE`", ?_⟩
      simp [lockEntrySql, hn, hlt, hmem]

theorem lock_mapM_error :
    ∀ (reqs : List LockRequest) {r : LockRequest}, r ∈ reqs →
      (∃ m, lockEntrySql r = .error m) →
      ∃ m2, List.mapM lockEntrySql reqs = .error m2 := by
  intro reqs
  induction reqs with
  | nil =>
    intro r hr
    simp at hr
  | cons a l ih =>
    intro r hr hrerr
    rw [List.mapM_cons]
    cases hs : lockEntrySql a with
    | error m => exact ⟨m, rfl⟩
    | ok part =>
      rcases List.mem_cons.mp hr with rfl | hmem
      · obtain ⟨m, hm⟩ := hrerr
        rw [hm] at hs
        cases hs
      · obtain ⟨m2, hm2⟩ := ih hmem hrerr
        refine ⟨m2, ?_⟩
        show (List.mapM lockEntrySql l >>= fun xs => pure (part :: xs)) = Except.error m2
        rw [hm2]
        rfl

/-- C5: configuration errors are thrown synchronously, before any SQL
exists, so the execution delegate is never consulted: the result of each
run is the same error for every delegate — `update` with no `where` and no
`id`, `updateRows` on a non-array or on an entry with neither `id` nor a
`row`/`where` pair, and a lock request list that is empty, misses
`tableName` or `lockType`, or carries a lock type outside the valid set. -/
theorem c5_config_errors_never_reach_delegate :
    ∀ (delegate : String → Except JsError (List ResultRow)) (table : String),
      (∀ (row : Row) (options : UpdateOptions), options.whereC = none →
        row.lookup "id" = none →
        updateRun delegate table row options = .error updateErrMsg) ∧
      (updateRowsRun delegate table .nonArray = .error "Options should be array") ∧
      (∀ (entries : List UpdateOption) (e : UpdateOption), e ∈ entries →
        e.id = none → (e.row = none ∨ e.whereC = none) →
        ∃ m, updateRowsRun delegate table (.arr entries) = .error m) ∧
      (locksRun delegate [] = .error "Cannot lock empty tables.") ∧
      (∀ (reqs : List LockRequest) (r : LockRequest), r ∈ reqs →
        (r.tableName = none ∨ r.lockType = none ∨
          ∃ lt, r.lockType = some lt ∧ validLockTypes.contains (upStr lt) = false) →
        ∃ m, locksRun delegate reqs = .error m) := by
  intro delegate table
  refine ⟨?_, rfl, ?_, rfl, ?_⟩
  · intro row options hw hid
    simp [updateRun, updateSql, updateOptionsAfter_error hw hid, Except.map]
  · intro entries e hmem h1 h2
    obtain ⟨m, hm⟩ := accum_fold_error entries ([], []) hmem h1 h2
    refine ⟨m, ?_⟩
    simp [updateRowsRun, updateRowsSql, accumRows, hm, Except.map]
  · intro reqs r hr hbad
    obtain ⟨m2, hm2⟩ := lock_mapM_error reqs hr (lockEntry_error r hbad)
    cases reqs with
    | nil => simp at hr
    | cons a l =>
      refine ⟨m2, ?_⟩
      show (locksSql (a :: l)).map (fun sql => queryRun delegate sql) = Except.error m2
      have hne : locksSql (a :: l) =
          (List.mapM lockEntrySql (a :: l)).map
            (fun parts => "LOCK TABLES " ++ joinWith ", " parts ++ ";") := rfl
      rw [hne, hm2]
      rfl

/-- Witness for C5: each configuration error at a concrete bad input and a
concrete delegate. -/
theorem c5_config_errors_witness :
    updateRun (fun _ => .ok []) "t" [("name", Value.vStr "x")] {} = .error updateErrMsg ∧
    updateRowsRun (fun _ => .ok []) "t" .nonArray = .error "Options should be array" ∧
    (∃ m, updateRowsRun (fun _ => .ok []) "t" (.arr [{}]) = .error m) ∧
    locksRun (fun _ => .ok []) [] = .error "Cannot lock empty tables." ∧
    (∃ m, locksRun (fun _ => .ok [])
      [{ tableName := some "t", lockType := some "bogus" }] = .error m) :=
  ⟨(c5_config_errors_never_reach_delegate (fun _ => .ok []) "t").1
      [("name", Value.vStr "x")] {} rfl rfl,
    (c5_config_errors_never_reach_delegate (fun _ => .ok []) "t").2.1,
    (c5_config_errors_never_reach_delegate (fun _ => .ok []) "t").2.2.1 [{}] {}
      (by simp) rfl (Or.inl rfl),
    (c5_config_errors_never_reach_delegate (fun _ => .ok []) "t").2.2.2.1,
    (c5_config_errors_never_reach_delegate (fun _ => .ok []) "t").2.2.2.2
      [{ tableName := some "t", lockType := some "bogus" }]
      { tableName := some "t", lockType := some "bogus" } (by simp)
      (Or.inr (Or.inr ⟨"bogus", rfl, by decide⟩))⟩

/-- C6 counterexample: the builder validates `lockType` case-insensitively
but emits it exactly as given (and with two spaces after `LOCK TABLES`),
so `buildLockStatement([{tableName:'t', lockType:'read'}])` produces
``LOCK TABLES  `t`  read;``, not the claimed ``LOCK TABLES `t`  READ;``. -/
theorem c6_lock_type_counterexample :
    locksSql [{ tableName := some "t", lockType := some "read" }] =
      .ok "LOCK TABLES  `t`  read;" ∧
    ("LOCK TABLES  `t`  read;" : String) ≠ "LOCK TABLES `t`  READ;" :=
  ⟨rfl, by decide⟩

/-- C6 amended: the lock builder accepts `lockType` case-insensitively
(validation upper-cases it against the closed set) but emits the lock type
exactly as the caller wrote it, after the escaped table name and two
single-space separators; `lockType:'read'` therefore yields
``LOCK TABLES  `t`  read;``. -/
theorem c6_lock_type_as_given :
    ∀ name lt, validLockTypes.contains (upStr lt) = true →
      locksSql [{ tableName := some name, lockType := some lt }] =
        .ok ("LOCK TABLES " ++ (" " ++ escId name ++ " " ++ " " ++ lt) ++ ";") := by
  intro name lt h
  have hmem : upStr lt ∈ validLockTypes := by simpa using h
  have h1 : lockEntrySql { tableName := some name, lockType := some lt } =
      .ok (" " ++ escId name ++ " " ++ " " ++ lt) := by
    simp [lockEntrySql, hmem]
  have h2 : locksSql [{ tableName := some name, lockType := some lt }] =
      (List.mapM lockEntrySql [{ tableName := some name, lockType := some lt }]).map
        (fun parts => "LOCK TABLES " ++ joinWith ", " parts ++ ";") := rfl
  rw [h2, List.mapM_cons, h1]
  rfl

/-- Witness for C6 at the lower-case lock type `read`. -/
theorem c6_lock_type_as_given_witness :
    validLockTypes.contains (upStr "read") = true ∧
    locksSql [{ tableName := some "t", lockType := some "read" }] =
      .ok ("LOCK TABLES " ++ (" " ++ escId "t" ++ " " ++ " " ++ "read") ++ ";") :=
  ⟨by decide, c6_lock_type_as_given "t" "read" (by decide)⟩

/-- C2: for `updateRows(t, [{id:1,name:'a'},{id:2,name:'b'}])` the batch
accumulators hold one CASE per updated column in first-seen order with the
WHEN branches in batch order and the distinct where-values collected under
`id`, and the composed SQL is the single statement
`` UPDATE `t` SET `name` = CASE WHEN `id` = 1 THEN 'a' WHEN `id` = 2 THEN
'b' ELSE `name` END WHERE `id` IN (1, 2) `` (whitespace exactly as the
source concatenates it). -/
theorem c2_update_rows_case_sql :
    accumRows [
        { id := some (.vInt 1), extra := [("name", .vStr "a")] },
        { id := some (.vInt 2), extra := [("name", .vStr "b")] }] =
      .ok ([("name", ([" WHEN  `id` = 1 THEN ? ", " WHEN  `id` = 2 THEN ? "],
              [Value.vStr "a", Value.vStr "b"]))],
           [("id", [Value.vInt 1, Value.vInt 2])]) ∧
    updateRowsSql "t" (.arr [
        { id := some (.vInt 1), extra := [("name", .vStr "a")] },
        { id := some (.vInt 2), extra := [("name", .vStr "b")] }]) =
      .ok "UPDATE `t` SET  `name` = CASE  WHEN  `id` = 1 THEN 'a'   WHEN  `id` = 2 THEN 'b'  ELSE `name` END  WHERE `id` IN (1, 2)" :=
  ⟨rfl, rfl⟩

end AliRds
